import Mathlib

/-!
Shallow embedding of the scheduling / process-supervision core of the
hnh-scheduler repository.

Sources embedded:
- `src/unnamed/part_005` — class `Scheduler` (trigger handling, concurrency
  arbitration, character locks, per-character FIFO queues, skip flags,
  schedule registration).
- `src/unnamed/part_003` — class `ProcessManager` (run tracking, exit/error
  classification, stop, two-stage timeout).
- `src/src/main/app.ts` — `HnHSchedulerApp.setupEventHandlers` (routing of
  ProcessManager events to `Scheduler.onRunCompleted`).
- `src/src/main/ipc.ts` — `IPCManager.setupEventForwarding` (routing of
  `run:kill-requested` to `ProcessManager.stopRun`, with the catch-all).

JavaScript `Map`s are modelled as association lists that keep insertion
order (`set` of an existing key updates in place, a fresh key is appended),
a `Set<string>` as an ordered duplicate-free list, and wall-clock instants
as natural numbers of milliseconds.  Event emission is modelled by
returning the list of emitted events next to the new state.
-/

namespace JMap

/-- JS `Map.get` — first binding of the key, if any. -/
def get {β : Type} (m : List (String × β)) (k : String) : Option β :=
  (m.find? (fun p => p.1 == k)).map (fun p => p.2)

/-- JS `Map.set` — update in place when the key exists, else append. -/
def set {β : Type} (m : List (String × β)) (k : String) (v : β) : List (String × β) :=
  if m.any (fun p => p.1 == k) then
    m.map (fun p => if p.1 == k then (k, v) else p)
  else
    m ++ [(k, v)]

/-- JS `Map.delete`. -/
def del {β : Type} (m : List (String × β)) (k : String) : List (String × β) :=
  m.filter (fun p => !(p.1 == k))

end JMap

/-- JS `Set.add` on a set of strings (no-op when already present). -/
def saddStr (l : List String) (k : String) : List String :=
  if l.contains k then l else l ++ [k]

/-- JS `Set.delete` on a set of strings. -/
def sdelStr (l : List String) (k : String) : List String :=
  l.filter (fun x => !(x == k))

/-- `Cadence.every`'s unit field (`'minutes' | 'hours'`). -/
inductive IntervalUnit
  | minutes
  | hours
deriving DecidableEq

/-- The cadence union from `src/types`: cron expression, fixed interval with
optional anchor (`startTimeISO`, modelled as a millisecond instant), or
one-shot (`atISO`). -/
inductive Cadence
  | cron (expression : String)
  | every (unit : IntervalUnit) (n : Nat) (startTime : Option Nat)
  | once (atTime : Nat)
deriving DecidableEq

/-- `overlapPolicy ∈ {skip, queue, kill-previous}`. -/
inductive OverlapPolicy
  | skip
  | queue
  | killPrevious
deriving DecidableEq

/-- A schedule entry (the fields the core reads). -/
structure ScheduleEntry where
  id : String
  scenarioId : String
  characterId : String
  cadence : Cadence
  maxDurationMs : Nat
  overlapPolicy : OverlapPolicy
  enabled : Bool
deriving DecidableEq

/-- A schedule: enabled flag, optional per-schedule ceiling, entries. -/
structure Schedule where
  id : String
  name : String
  enabled : Bool
  concurrencyLimit : Option Nat
  entries : List ScheduleEntry
deriving DecidableEq

/-- `ScheduledJob.type` in part_005. -/
inductive JobType
  | cron
  | interval
  | timeout
deriving DecidableEq

/-- Runtime job record (`ScheduledJob` in part_005); the timer handle itself
is not part of the modelled state, only its kind. -/
structure ScheduledJob where
  entryId : String
  scheduleId : String
  entry : ScheduleEntry
  jobType : JobType
  startedAt : Nat
  lastRunAt : Option Nat
  nextRunAt : Option Nat
deriving DecidableEq

/-- `QueuedRun` in part_005. -/
structure QueuedRun where
  entryId : String
  characterId : String
  timestamp : Nat
deriving DecidableEq

/-- The mutable fields of class `Scheduler` (part_005 lines 23-27). -/
structure SchedulerState where
  jobs : List (String × ScheduledJob)
  characterLocks : List (String × String)
  characterQueues : List (String × List QueuedRun)
  scheduleRunCounts : List (String × Nat)
  skippedRuns : List String
deriving DecidableEq

/-- The scheduler with no jobs, locks, queues, counts or skip flags. -/
def emptySchedulerState : SchedulerState :=
  { jobs := [], characterLocks := [], characterQueues := [],
    scheduleRunCounts := [], skippedRuns := [] }

/-- Events emitted by the `Scheduler` (payloads restricted to the fields the
claims are about). -/
inductive SchedEvent
  | runSkipped (entryId reason : String)
  | runQueued (entryId : String) (queuePosition : Nat)
  | runKillRequested (runId reason : String)
  | runRequested (scheduleId entryId scenarioId characterId : String) (maxDurationMs : Nat)
  | entryError (entryId : String)
deriving DecidableEq

namespace Scheduler

/-- part_005 lines 412-415: the global concurrency limit is hardcoded to 3. -/
def getGlobalConcurrencyLimit : Nat := 3

/-- part_005 lines 417-419. -/
def getTotalActiveRuns (s : SchedulerState) : Nat :=
  (s.scheduleRunCounts.map (fun p => p.2)).foldl (fun a b => a + b) 0

/-- part_005 lines 512-515. -/
def isRunSkipped (s : SchedulerState) (scheduleId entryId : String) : Bool :=
  s.skippedRuns.contains (scheduleId ++ "-" ++ entryId)

/-- part_005 lines 498-501. -/
def setRunSkipped (scheduleId entryId : String) (s : SchedulerState) : SchedulerState :=
  { s with skippedRuns := saddStr s.skippedRuns (scheduleId ++ "-" ++ entryId) }

/-- part_005 lines 503-506. -/
def clearRunSkipped (scheduleId entryId : String) (s : SchedulerState) : SchedulerState :=
  { s with skippedRuns := sdelStr s.skippedRuns (scheduleId ++ "-" ++ entryId) }

/-- part_005 lines 182-191. -/
def calculateInterval (unit : IntervalUnit) (n : Nat) : Nat :=
  match unit with
  | IntervalUnit.minutes => n * 60 * 1000
  | IntervalUnit.hours => n * 60 * 60 * 1000

/-- part_005 lines 275-288 (`queueRun`): append to the character's FIFO and
emit `run:queued` with the new queue length. -/
def queueRun (entry : ScheduleEntry) (now : Nat) (s : SchedulerState) :
    SchedulerState × List SchedEvent :=
  let q := (JMap.get s.characterQueues entry.characterId).getD []
  let q2 := q ++ [{ entryId := entry.id, characterId := entry.characterId, timestamp := now }]
  ({ s with characterQueues := JMap.set s.characterQueues entry.characterId q2 },
   [SchedEvent.runQueued entry.id q2.length])

/-- part_005 lines 290-295 (`killPreviousRun`): emit a kill request carrying
whatever value is stored in the character-lock map. -/
def killPreviousRun (characterId : String) (s : SchedulerState) : List SchedEvent :=
  match JMap.get s.characterLocks characterId with
  | some currentRunId => [SchedEvent.runKillRequested currentRunId "overlap-policy"]
  | none => []

/-- part_005 lines 297-313 (`startRun`): the lock value stored for the
character is `entry.id`, and the schedule's run count is incremented. -/
def startRun (scheduleId : String) (entry : ScheduleEntry) (s : SchedulerState) :
    SchedulerState × List SchedEvent :=
  let locks := JMap.set s.characterLocks entry.characterId entry.id
  let currentCount := (JMap.get s.scheduleRunCounts scheduleId).getD 0
  ({ s with
      characterLocks := locks,
      scheduleRunCounts := JMap.set s.scheduleRunCounts scheduleId (currentCount + 1) },
   [SchedEvent.runRequested scheduleId entry.id entry.scenarioId entry.characterId
      entry.maxDurationMs])

/-- part_005 lines 253-268 (`handleCharacterOverlap`). -/
def handleCharacterOverlap (schedule : Schedule) (entry : ScheduleEntry) (now : Nat)
    (s : SchedulerState) : SchedulerState × List SchedEvent :=
  match entry.overlapPolicy with
  | OverlapPolicy.skip => (s, [SchedEvent.runSkipped entry.id "character-busy"])
  | OverlapPolicy.queue => queueRun entry now s
  | OverlapPolicy.killPrevious =>
    let evs := killPreviousRun entry.characterId s
    let r := startRun schedule.id entry s
    (r.1, evs ++ r.2)

/-- part_005 lines 270-273: schedule-level contention always queues. -/
def handleScheduleOverlap (_schedule : Schedule) (entry : ScheduleEntry) (now : Nat)
    (s : SchedulerState) : SchedulerState × List SchedEvent :=
  queueRun entry now s

/-- part_005 lines 193-204: the bookkeeping at the top of `handleTrigger`
(update `lastRunAt`, and `nextRunAt` for repeating interval jobs). -/
def updateJobBookkeeping (entry : ScheduleEntry) (now : Nat) (s : SchedulerState) :
    SchedulerState :=
  match JMap.get s.jobs entry.id with
  | none => s
  | some job =>
    let job := { job with lastRunAt := some now }
    let job :=
      match job.jobType, entry.cadence with
      | JobType.interval, Cadence.every unit n _ =>
        { job with nextRunAt := some (now + calculateInterval unit n) }
      | _, _ => job
    { s with jobs := JMap.set s.jobs entry.id job }

/-- part_005 lines 240-247: the per-character lock check at the end of the
admission chain. -/
def checkCharacterLock (schedule : Schedule) (entry : ScheduleEntry) (now : Nat)
    (s : SchedulerState) : SchedulerState × List SchedEvent :=
  if (JMap.get s.characterLocks entry.characterId).isSome then
    handleCharacterOverlap schedule entry now s
  else
    startRun schedule.id entry s

/-- part_005 lines 193-251 (`handleTrigger`): bookkeeping, then the
fixed-order admission chain — manual skip, global ceiling, per-schedule
ceiling (guarded by JS truthiness of `concurrencyLimit`, so a limit of 0 is
ignored), then the character lock.  The try/catch around the concurrency
section cannot fire in this embedding (no exceptions are possible). -/
def handleTrigger (schedule : Schedule) (entry : ScheduleEntry) (now : Nat)
    (s : SchedulerState) : SchedulerState × List SchedEvent :=
  let s := updateJobBookkeeping entry now s
  if isRunSkipped s schedule.id entry.id then
    ({ s with skippedRuns := sdelStr s.skippedRuns (schedule.id ++ "-" ++ entry.id) },
     [SchedEvent.runSkipped entry.id "manual-skip"])
  else if getGlobalConcurrencyLimit ≤ getTotalActiveRuns s then
    queueRun entry now s
  else if (match schedule.concurrencyLimit with | some l => l != 0 | none => false) then
    if schedule.concurrencyLimit.getD 0 ≤ (JMap.get s.scheduleRunCounts schedule.id).getD 0 then
      handleScheduleOverlap schedule entry now s
    else
      checkCharacterLock schedule entry now s
  else
    checkCharacterLock schedule entry now s

/-- part_005 lines 341-364 (`processCharacterQueue`): pop the FIFO head,
look its job up, re-check only the GLOBAL limit (the per-schedule
`concurrencyLimit` is not re-checked), re-queueing the head when the global
limit is still reached.  A head whose job is gone is dropped silently. -/
def processCharacterQueue (characterId : String) (s : SchedulerState) :
    SchedulerState × List SchedEvent :=
  match JMap.get s.characterQueues characterId with
  | none => (s, [])
  | some [] => (s, [])
  | some (nextRun :: rest) =>
    let s1 := { s with characterQueues := JMap.set s.characterQueues characterId rest }
    match JMap.get s1.jobs nextRun.entryId with
    | none => (s1, [])
    | some job =>
      if getGlobalConcurrencyLimit ≤ getTotalActiveRuns s1 then
        ({ s1 with
            characterQueues := JMap.set s1.characterQueues characterId (nextRun :: rest) }, [])
      else
        startRun job.scheduleId job.entry s1

/-- part_005 lines 315-339 (`onRunCompleted`): find the first character
whose stored lock value equals `entryId`, release it and drain that
character's queue; then decrement EVERY schedule's positive run count (the
loop on lines 334-338 iterates over all of `scheduleRunCounts`).  The
`runId` argument is unused by the source. -/
def onRunCompleted (_runId entryId : String) (s : SchedulerState) :
    SchedulerState × List SchedEvent :=
  let characterId? := (s.characterLocks.find? (fun p => p.2 == entryId)).map (fun p => p.1)
  let res :=
    match characterId? with
    | some characterId =>
      let s1 := { s with characterLocks := JMap.del s.characterLocks characterId }
      processCharacterQueue characterId s1
    | none => (s, [])
  let s2 := res.1
  ({ s2 with
      scheduleRunCounts :=
        s2.scheduleRunCounts.map (fun p => if 0 < p.2 then (p.1, p.2 - 1) else p) },
   res.2)

/-- part_005 lines 366-372 (`clearAllJobs`): clears the job map and the
schedule run counts; locks, queues and skip flags are untouched. -/
def clearAllJobs (s : SchedulerState) : SchedulerState :=
  { s with jobs := [], scheduleRunCounts := [] }

/-- The anchored-interval advancing loop of part_005 (lines 69-72 and
127-130): `while (nextExecution <= now) nextExecution += intervalMs`,
written with explicit fuel `now + 1 - next`, which bounds the iteration
count whenever `0 < intervalMs` (for `intervalMs = 0` the JS loop does not
terminate; the fueled version then returns the current value). -/
def nextExecutionGo : Nat → Nat → Nat → Nat → Nat
  | 0, _, next, _ => next
  | fuel + 1, intervalMs, next, now =>
    if next ≤ now then nextExecutionGo fuel intervalMs (next + intervalMs) now else next

/-- The anchored-interval loop started at the anchor. -/
def nextExecutionLoop (intervalMs startTime now : Nat) : Nat :=
  nextExecutionGo (now + 1 - startTime) intervalMs startTime now

/-- part_005 lines 99-180 (`createJob`), reduced to its decision: a cron job
for a valid expression (`cronOk` stands for node-cron's validation; an
invalid expression throws), an interval job for `every`, and a timeout job
for a future `once` — a past `once` yields no job (`null`). -/
def createJob (cronOk : String → Bool) (cadence : Cadence) (now : Nat) :
    Except String (Option JobType) :=
  match cadence with
  | Cadence.cron expr =>
    if cronOk expr then Except.ok (some JobType.cron) else Except.error "invalid cron expression"
  | Cadence.every _ _ _ => Except.ok (some JobType.interval)
  | Cadence.once atTime =>
    if atTime ≤ now then Except.ok none else Except.ok (some JobType.timeout)

/-- part_005 lines 57-81: the `nextRunAt` computed at registration — for an
anchored interval the anchor advanced past `now` by whole intervals, for an
unanchored interval `now + interval`, for a one-shot its target time. -/
def computeNextRunAt (jobType : JobType) (cadence : Cadence) (now : Nat) : Option Nat :=
  match jobType, cadence with
  | JobType.interval, Cadence.every unit n (some startTime) =>
    some (nextExecutionLoop (calculateInterval unit n) startTime now)
  | JobType.interval, Cadence.every unit n none =>
    some (now + calculateInterval unit n)
  | JobType.timeout, Cadence.once atTime => some atTime
  | _, _ => none

/-- part_005 lines 53-97 (`registerEntry`): create the job, compute
`nextRunAt`, store the `ScheduledJob`; a creation failure emits
`entry:error` and registers nothing. -/
def registerEntry (cronOk : String → Bool) (schedule : Schedule) (entry : ScheduleEntry)
    (now : Nat) (s : SchedulerState) : SchedulerState × List SchedEvent :=
  match createJob cronOk entry.cadence now with
  | Except.error _ => (s, [SchedEvent.entryError entry.id])
  | Except.ok none => (s, [])
  | Except.ok (some t) =>
    ({ s with
        jobs := JMap.set s.jobs entry.id
          { entryId := entry.id, scheduleId := schedule.id, entry := entry, jobType := t,
            startedAt := now, lastRunAt := none,
            nextRunAt := computeNextRunAt t entry.cadence now } }, [])

/-- The entry loop of `registerSchedule` (part_005 lines 45-51). -/
def registerScheduleGo (cronOk : String → Bool) (schedule : Schedule) (now : Nat) :
    List ScheduleEntry → SchedulerState × List SchedEvent → SchedulerState × List SchedEvent
  | [], acc => acc
  | entry :: rest, acc =>
    let acc2 :=
      if entry.enabled then
        let r := registerEntry cronOk schedule entry now acc.1
        (r.1, acc.2 ++ r.2)
      else acc
    registerScheduleGo cronOk schedule now rest acc2

/-- part_005 lines 45-51 (`registerSchedule`). -/
def registerSchedule (cronOk : String → Bool) (schedule : Schedule) (now : Nat)
    (s : SchedulerState) : SchedulerState × List SchedEvent :=
  registerScheduleGo cronOk schedule now schedule.entries (s, [])

/-- The schedule loop of `registerSchedules` (part_005 lines 37-42). -/
def registerSchedulesGo (cronOk : String → Bool) (now : Nat) :
    List Schedule → SchedulerState × List SchedEvent → SchedulerState × List SchedEvent
  | [], acc => acc
  | schedule :: rest, acc =>
    let acc2 :=
      if schedule.enabled then
        let r := registerSchedule cronOk schedule now acc.1
        (r.1, acc.2 ++ r.2)
      else acc
    registerSchedulesGo cronOk now rest acc2

/-- part_005 lines 33-43 (`registerSchedules`): clear all jobs and counts,
then register every enabled schedule. -/
def registerSchedules (cronOk : String → Bool) (schedules : List Schedule) (now : Nat)
    (s : SchedulerState) : SchedulerState × List SchedEvent :=
  registerSchedulesGo cronOk now schedules (clearAllJobs s, [])

end Scheduler

/-- `RunRecord.status` (src/types): terminal statuses. -/
inductive RunStatus
  | success
  | error
  | timeout
  | killed
  | skipped
deriving DecidableEq

/-- The `ProcessRun` entry of `ProcessManager.activeRuns` (part_003 lines
214-227); the two timer handles are modelled as presence flags, stdio and
the credential/config-file plumbing are external I/O and are elided. -/
structure ProcessRun where
  runId : String
  entryId : String
  startedAt : Nat
  maxDurationMs : Nat
  scenarioId : String
  characterId : String
  logBuffer : List String
  hasTimeout : Bool
  hasGracefulTimeout : Bool
deriving DecidableEq

/-- The mutable state of `ProcessManager`: the `activeRuns` map. -/
structure PMState where
  activeRuns : List (String × ProcessRun)
deriving DecidableEq

/-- A terminal `RunRecord` (src/types / part_003 lines 467-478). -/
structure RunRecord where
  ts : Nat
  runId : String
  entryId : String
  scheduleId : String
  scenarioId : String
  characterId : String
  status : RunStatus
  exitCode : Option Int
  signal : Option String
  durationMs : Nat
  errMsg : Option String
deriving DecidableEq

/-- Events emitted by the `ProcessManager`. -/
inductive PMEvent
  | runStarted (runId entryId : String)
  | runExit (runId : String) (record : RunRecord) (logBuffer : List String)
  | runError (runId : String) (msg : String) (record : RunRecord) (logBuffer : List String)
deriving DecidableEq

/-- Signals sent to a child process by the `ProcessManager`. -/
inductive PMAction
  | kill (runId signal : String)
deriving DecidableEq

namespace ProcessManager

/-- The signal test of part_003 line 461:
`signal === 'SIGINT' || signal === 'SIGKILL' || signal === 'SIGTERM'`. -/
def isKillSignal (signal : Option String) : Bool :=
  signal == some "SIGINT" || signal == some "SIGKILL" || signal == some "SIGTERM"

/-- part_003 lines 460-465: the terminal-status classification of
`handleProcessExit`.  A `null` exit code (`code !== 0` in JS) counts as
non-zero. -/
def classifyStatus (code : Option Int) (signal : Option String)
    (durationMs maxDurationMs : Nat) : RunStatus :=
  if isKillSignal signal then
    if maxDurationMs ≤ durationMs then RunStatus.timeout else RunStatus.killed
  else if code != some 0 then RunStatus.error
  else RunStatus.success

/-- part_003 lines 237-340 (`startRun`), reduced to its state effect: track
the run under the freshly generated `runId` (the uuid is supplied as an
argument here) and emit `run:started`.  Credential resolution, the config
file and the spawn itself are external I/O. -/
def startRun (runId entryId scenarioId characterId : String) (maxDurationMs now : Nat)
    (s : PMState) : PMState × List PMEvent :=
  let run : ProcessRun :=
    { runId := runId, entryId := entryId, startedAt := now, maxDurationMs := maxDurationMs,
      scenarioId := scenarioId, characterId := characterId, logBuffer := [],
      hasTimeout := true, hasGracefulTimeout := false }
  ({ activeRuns := JMap.set s.activeRuns runId run }, [PMEvent.runStarted runId entryId])

/-- part_003 lines 445-499 (`handleProcessExit`): cancel timers, classify,
build the record (`exitCode: code || undefined` maps both `null` and `0`
to `undefined`), drop the run and emit `run:exit`. -/
def handleProcessExit (runId : String) (code : Option Int) (signal : Option String)
    (now : Nat) (s : PMState) : PMState × List PMEvent :=
  match JMap.get s.activeRuns runId with
  | none => (s, [])
  | some run =>
    let durationMs := now - run.startedAt
    let record : RunRecord :=
      { ts := now, runId := runId, entryId := run.entryId, scheduleId := "",
        scenarioId := run.scenarioId, characterId := run.characterId,
        status := classifyStatus code signal durationMs run.maxDurationMs,
        exitCode := (match code with | some c => if c == 0 then none else some c | none => none),
        signal := signal, durationMs := durationMs, errMsg := none }
    ({ activeRuns := JMap.del s.activeRuns runId },
     [PMEvent.runExit runId record run.logBuffer])

/-- part_003 lines 501-550 (`handleProcessError`, the spawn-failure path):
cancel timers, build a record with status `error` and no process id, drop
the run — and emit `run:error`, NOT `run:exit`. -/
def handleProcessError (runId msg : String) (now : Nat) (s : PMState) :
    PMState × List PMEvent :=
  match JMap.get s.activeRuns runId with
  | none => (s, [])
  | some run =>
    let durationMs := now - run.startedAt
    let record : RunRecord :=
      { ts := now, runId := runId, entryId := run.entryId, scheduleId := "",
        scenarioId := run.scenarioId, characterId := run.characterId,
        status := RunStatus.error, exitCode := none, signal := none,
        durationMs := durationMs, errMsg := some msg }
    ({ activeRuns := JMap.del s.activeRuns runId },
     [PMEvent.runError runId msg record run.logBuffer])

/-- part_003 lines 342-372 (`stopRun`): an unknown `runId` THROWS
`Run ... not found`; a tracked run gets its soft timer cleared, the
graceful SIGINT, and a fresh 10-second hard-kill timer. -/
def stopRun (runId : String) (s : PMState) : Except String (PMState × List PMAction) :=
  match JMap.get s.activeRuns runId with
  | none => Except.error ("Run " ++ runId ++ " not found")
  | some run =>
    let run := { run with hasTimeout := false, hasGracefulTimeout := true }
    Except.ok ({ activeRuns := JMap.set s.activeRuns runId run },
      [PMAction.kill runId "SIGINT"])

/-- A point-in-time view of the two timers armed by `setupTimeout`
(part_003 lines 425-443) for one run, plus the signals sent so far. -/
structure TimeoutSimState where
  softAt : Option Nat
  hardAt : Option Nat
  signalsSent : List (Nat × String)
deriving DecidableEq

/-- part_003 line 426/442: at start only the soft timer is armed, at
`maxDurationMs` after start. -/
def setupTimeoutSim (startedAt maxDurationMs : Nat) : TimeoutSimState :=
  { softAt := some (startedAt + maxDurationMs), hardAt := none, signalsSent := [] }

/-- part_003 lines 427-436: the soft timer's callback sends SIGINT and only
then arms the hard timer, 10000 ms later. -/
def fireSoftTimeout (st : TimeoutSimState) : TimeoutSimState :=
  match st.softAt with
  | none => st
  | some t =>
    { softAt := none, hardAt := some (t + 10000), signalsSent := st.signalsSent ++ [(t, "SIGINT")] }

/-- part_003 lines 433-436 with `forceKillProcess` (lines 374-388, the unix
branch): the hard timer's callback sends SIGKILL. -/
def fireHardTimeout (st : TimeoutSimState) : TimeoutSimState :=
  match st.hardAt with
  | none => st
  | some t =>
    { st with hardAt := none, signalsSent := st.signalsSent ++ [(t, "SIGKILL")] }

end ProcessManager

/-- ipc.ts lines 338-344: the `run:kill-requested` handler calls
`processManager.stopRun(data.runId)` inside try/catch — a thrown
`Run not found` is only logged, so the supervisor state is unchanged and no
signal is sent. -/
def ipcOnKillRequested (runId : String) (s : PMState) : PMState × List PMAction :=
  match ProcessManager.stopRun runId s with
  | Except.ok r => r
  | Except.error _ => (s, [])

/-- app.ts lines 109-124 (`setupEventHandlers`): of the ProcessManager's
events only `run:exit` is subscribed, and its handler calls
`scheduler.onRunCompleted(runId, record.entryId)` (the ledger append is
external).  `run:error` and `run:started` reach no scheduler handler. -/
def appOnProcessManagerEvent (ev : PMEvent) (sched : SchedulerState) :
    SchedulerState × List SchedEvent :=
  match ev with
  | PMEvent.runExit runId record _ => Scheduler.onRunCompleted runId record.entryId sched
  | _ => (sched, [])

/-- Deliver a list of ProcessManager events to the app's handlers in order. -/
def appDispatchAll (evs : List PMEvent) (sched : SchedulerState) : SchedulerState :=
  evs.foldl (fun s ev => (appOnProcessManagerEvent ev s).1) sched

/-- `true` on the `run:exit` events of a ProcessManager event list. -/
def isRunExitEvent : PMEvent → Bool
  | PMEvent.runExit _ _ _ => true
  | _ => false

/-- The status of the record carried by an exit or error event. -/
def eventRecordStatus : PMEvent → Option RunStatus
  | PMEvent.runExit _ record _ => some record.status
  | PMEvent.runError _ _ record _ => some record.status
  | _ => none

/-- The `(entryId, scheduleId)` pairs of the `run:requested` events in an
event list — each such event makes ipc.ts (lines 320-336) start one
external process. -/
def requestedRunsOf (evs : List SchedEvent) : List (String × String) :=
  evs.filterMap (fun ev =>
    match ev with
    | SchedEvent.runRequested scheduleId entryId _ _ _ => some (entryId, scheduleId)
    | _ => none)

/-- The composed system the claims about "concurrently-active runs" speak
of: the scheduler state next to the multiset of OS processes currently
running, each tagged `(entryId, scheduleId)`.  `run:requested` events start
a process (ipc.ts lines 320-336); a process exit removes it and reaches the
scheduler as `onRunCompleted` (app.ts lines 109-124). -/
structure SysState where
  sched : SchedulerState
  active : List (String × String)
deriving DecidableEq

/-- A timer fire delivered to the scheduler; freshly requested runs become
active processes. -/
def sysTrigger (schedule : Schedule) (entry : ScheduleEntry) (now : Nat) (st : SysState) :
    SysState :=
  let r := Scheduler.handleTrigger schedule entry now st.sched
  { sched := r.1, active := st.active ++ requestedRunsOf r.2 }

/-- A process exit for `entryId`: the process disappears, the scheduler is
told via `onRunCompleted`, and any run it re-admits from the queue starts a
new process. -/
def sysComplete (runId entryId : String) (st : SysState) : SysState :=
  let remaining := st.active.filter (fun p => !(p.1 == entryId))
  let r := Scheduler.onRunCompleted runId entryId st.sched
  { sched := r.1, active := remaining ++ requestedRunsOf r.2 }

/-- The number of currently running processes belonging to a schedule. -/
def activeRunsOfSchedule (scheduleId : String) (st : SysState) : Nat :=
  (st.active.filter (fun p => p.2 == scheduleId)).length

/-- A cron-validity oracle accepting everything (no example below uses a
cron cadence, so its value is irrelevant). -/
def cronOkAll : String → Bool := fun _ => true

/-- Entry A of schedule S1: character c1, overlap policy queue. -/
def exEntryA : ScheduleEntry :=
  { id := "A", scenarioId := "scA", characterId := "c1",
    cadence := Cadence.every IntervalUnit.minutes 1 none, maxDurationMs := 1000,
    overlapPolicy := OverlapPolicy.queue, enabled := true }

/-- Entry B of schedule S1: character c2, overlap policy queue. -/
def exEntryB : ScheduleEntry :=
  { id := "B", scenarioId := "scB", characterId := "c2",
    cadence := Cadence.every IntervalUnit.minutes 1 none, maxDurationMs := 1000,
    overlapPolicy := OverlapPolicy.queue, enabled := true }

/-- Entry X of schedule S2: character c2. -/
def exEntryX : ScheduleEntry :=
  { id := "X", scenarioId := "scX", characterId := "c2",
    cadence := Cadence.every IntervalUnit.minutes 1 none, maxDurationMs := 1000,
    overlapPolicy := OverlapPolicy.queue, enabled := true }

/-- Schedule S1, declared per-schedule ceiling 1, entries A and B. -/
def exS1 : Schedule :=
  { id := "S1", name := "one", enabled := true, concurrencyLimit := some 1,
    entries := [exEntryA, exEntryB] }

/-- Schedule S2, no per-schedule ceiling, entry X. -/
def exS2 : Schedule :=
  { id := "S2", name := "two", enabled := true, concurrencyLimit := none,
    entries := [exEntryX] }

/-- Registration of S1 and S2 at time 0 on a fresh scheduler. -/
def c2State0 : SchedulerState :=
  (Scheduler.registerSchedules cronOkAll [exS1, exS2] 0 emptySchedulerState).1

/-- The C2 trace: trigger X (starts on c2), trigger A (starts on c1),
trigger B (S1 is at its ceiling, B is queued on c2), then X's process
exits (B is re-admitted from c2's queue with no per-schedule check). -/
def c2FinalState : SysState :=
  sysComplete "rX" "X"
    (sysTrigger exS1 exEntryB 0
      (sysTrigger exS1 exEntryA 0
        (sysTrigger exS2 exEntryX 0 { sched := c2State0, active := [] })))

/-- C3 input: runs of two distinct schedules active at once — S1's entry A
holds c1, S2's entry X holds c2. -/
def c3State : SchedulerState :=
  { jobs := [], characterLocks := [("c1", "A"), ("c2", "X")], characterQueues := [],
    scheduleRunCounts := [("S1", 1), ("S2", 1)], skippedRuns := [] }

/-- C1 input, scheduler side: entry e1 just admitted, so character c1 is
locked and schedule s1's count is 1. -/
def c1Sched : SchedulerState :=
  { jobs := [], characterLocks := [("c1", "e1")], characterQueues := [],
    scheduleRunCounts := [("s1", 1)], skippedRuns := [] }

/-- C1 input, supervisor side: the run tracked under runId r1. -/
def c1PM : PMState :=
  (ProcessManager.startRun "r1" "e1" "sc1" "c1" 5000 0 { activeRuns := [] }).1

/-- The events the supervisor emits when the spawn fails 5 ms in. -/
def c1Events : List PMEvent :=
  (ProcessManager.handleProcessError "r1" "spawn ENOENT" 5 c1PM).2

/-- C4 input: a single kill-previous entry on character c1. -/
def c4Entry : ScheduleEntry :=
  { id := "e1", scenarioId := "sc1", characterId := "c1",
    cadence := Cadence.every IntervalUnit.minutes 1 none, maxDurationMs := 5000,
    overlapPolicy := OverlapPolicy.killPrevious, enabled := true }

/-- C4 input: its schedule. -/
def c4Schedule : Schedule :=
  { id := "s1", name := "s", enabled := true, concurrencyLimit := none, entries := [c4Entry] }

/-- Scheduler after registering the schedule and the first fire of e1. -/
def c4Trig1 : SchedulerState × List SchedEvent :=
  Scheduler.handleTrigger c4Schedule c4Entry 0
    (Scheduler.registerSchedules cronOkAll [c4Schedule] 0 emptySchedulerState).1

/-- Supervisor after it started e1's process under the fresh uuid
run-7f3a. -/
def c4PM : PMState :=
  (ProcessManager.startRun "run-7f3a" "e1" "sc1" "c1" 5000 0 { activeRuns := [] }).1

/-- The second fire of e1 while its first run is still active. -/
def c4Trig2 : SchedulerState × List SchedEvent :=
  Scheduler.handleTrigger c4Schedule c4Entry 60000 c4Trig1.1

/-- C5 witness state: the skip flag for (s1, A) is set, nothing else. -/
def c5State : SchedulerState :=
  { emptySchedulerState with skippedRuns := ["s1-A"] }

/-- C5 witness schedule: id s1, no entries needed beyond A. -/
def c5Schedule : Schedule :=
  { id := "s1", name := "n", enabled := true, concurrencyLimit := none, entries := [exEntryA] }

/-! ### Helper lemmas -/

lemma contains_saddStr (l : List String) (k : String) : (saddStr l k).contains k = true := by
  simp only [saddStr]
  by_cases hm : k ∈ l
  · simp [hm]
  · simp [hm]

lemma saddStr_idem (l : List String) (k : String) : saddStr (saddStr l k) k = saddStr l k := by
  simp only [saddStr]
  by_cases hm : k ∈ l
  · simp [hm]
  · simp [hm]

lemma contains_sdelStr (l : List String) (k : String) : (sdelStr l k).contains k = false := by
  simp [sdelStr]

lemma not_mem_sdelStr (l : List String) (k : String) : k ∉ sdelStr l k := by
  simp [sdelStr]

lemma updateJobBookkeeping_frame (entry : ScheduleEntry) (now : Nat) (s : SchedulerState) :
    (Scheduler.updateJobBookkeeping entry now s).characterLocks = s.characterLocks
  ∧ (Scheduler.updateJobBookkeeping entry now s).characterQueues = s.characterQueues
  ∧ (Scheduler.updateJobBookkeeping entry now s).scheduleRunCounts = s.scheduleRunCounts
  ∧ (Scheduler.updateJobBookkeeping entry now s).skippedRuns = s.skippedRuns := by
  unfold Scheduler.updateJobBookkeeping
  cases JMap.get s.jobs entry.id <;> simp

lemma isRunSkipped_updateJobBookkeeping (entry : ScheduleEntry) (now : Nat)
    (s : SchedulerState) (sid eid : String) :
    Scheduler.isRunSkipped (Scheduler.updateJobBookkeeping entry now s) sid eid
      = Scheduler.isRunSkipped s sid eid := by
  unfold Scheduler.isRunSkipped
  rw [(updateJobBookkeeping_frame entry now s).2.2.2]

lemma registerEntry_frame (cronOk : String → Bool) (schedule : Schedule)
    (entry : ScheduleEntry) (now : Nat) (s : SchedulerState) :
    (Scheduler.registerEntry cronOk schedule entry now s).1.characterLocks = s.characterLocks
  ∧ (Scheduler.registerEntry cronOk schedule entry now s).1.characterQueues = s.characterQueues
  ∧ (Scheduler.registerEntry cronOk schedule entry now s).1.scheduleRunCounts
      = s.scheduleRunCounts
  ∧ (Scheduler.registerEntry cronOk schedule entry now s).1.skippedRuns = s.skippedRuns := by
  unfold Scheduler.registerEntry
  cases Scheduler.createJob cronOk entry.cadence now with
  | error e => simp
  | ok o => cases o <;> simp

lemma registerEntry_jobs_congr (cronOk : String → Bool) (schedule : Schedule)
    (entry : ScheduleEntry) (now : Nat) (s t : SchedulerState) (hj : s.jobs = t.jobs) :
    (Scheduler.registerEntry cronOk schedule entry now s).1.jobs
      = (Scheduler.registerEntry cronOk schedule entry now t).1.jobs := by
  unfold Scheduler.registerEntry
  cases Scheduler.createJob cronOk entry.cadence now with
  | error e => simpa using hj
  | ok o => cases o <;> simp [hj]

lemma registerScheduleGo_frame (cronOk : String → Bool) (schedule : Schedule) (now : Nat) :
    ∀ (entries : List ScheduleEntry) (a : SchedulerState × List SchedEvent),
      (Scheduler.registerScheduleGo cronOk schedule now entries a).1.characterLocks
          = a.1.characterLocks
    ∧ (Scheduler.registerScheduleGo cronOk schedule now entries a).1.characterQueues
          = a.1.characterQueues
    ∧ (Scheduler.registerScheduleGo cronOk schedule now entries a).1.scheduleRunCounts
          = a.1.scheduleRunCounts
    ∧ (Scheduler.registerScheduleGo cronOk schedule now entries a).1.skippedRuns
          = a.1.skippedRuns := by
  intro entries
  induction entries with
  | nil => intro a; exact ⟨rfl, rfl, rfl, rfl⟩
  | cons entry rest ih =>
    intro a
    rw [show Scheduler.registerScheduleGo cronOk schedule now (entry :: rest) a
        = Scheduler.registerScheduleGo cronOk schedule now rest
            (if entry.enabled then
              ((Scheduler.registerEntry cronOk schedule entry now a.1).1,
               a.2 ++ (Scheduler.registerEntry cronOk schedule entry now a.1).2)
             else a) from rfl]
    cases h : entry.enabled with
    | false => simpa [h] using ih a
    | true =>
      have hf := registerEntry_frame cronOk schedule entry now a.1
      have hr := ih ((Scheduler.registerEntry cronOk schedule entry now a.1).1,
        a.2 ++ (Scheduler.registerEntry cronOk schedule entry now a.1).2)
      simp only [h, if_true]
      exact ⟨hr.1.trans hf.1, hr.2.1.trans hf.2.1, hr.2.2.1.trans hf.2.2.1,
        hr.2.2.2.trans hf.2.2.2⟩

lemma registerScheduleGo_jobs_congr (cronOk : String → Bool) (schedule : Schedule) (now : Nat) :
    ∀ (entries : List ScheduleEntry) (a b : SchedulerState × List SchedEvent),
      a.1.jobs = b.1.jobs →
      (Scheduler.registerScheduleGo cronOk schedule now entries a).1.jobs
        = (Scheduler.registerScheduleGo cronOk schedule now entries b).1.jobs := by
  intro entries
  induction entries with
  | nil => intro a b h; exact h
  | cons entry rest ih =>
    intro a b h
    rw [show Scheduler.registerScheduleGo cronOk schedule now (entry :: rest) a
        = Scheduler.registerScheduleGo cronOk schedule now rest
            (if entry.enabled then
              ((Scheduler.registerEntry cronOk schedule entry now a.1).1,
               a.2 ++ (Scheduler.registerEntry cronOk schedule entry now a.1).2)
             else a) from rfl,
      show Scheduler.registerScheduleGo cronOk schedule now (entry :: rest) b
        = Scheduler.registerScheduleGo cronOk schedule now rest
            (if entry.enabled then
              ((Scheduler.registerEntry cronOk schedule entry now b.1).1,
               b.2 ++ (Scheduler.registerEntry cronOk schedule entry now b.1).2)
             else b) from rfl]
    cases h2 : entry.enabled with
    | false => simpa [h2] using ih a b h
    | true =>
      simp only [h2, if_true]
      exact ih _ _ (registerEntry_jobs_congr cronOk schedule entry now a.1 b.1 h)

lemma registerSchedule_frame (cronOk : String → Bool) (schedule : Schedule) (now : Nat)
    (s : SchedulerState) :
    (Scheduler.registerSchedule cronOk schedule now s).1.characterLocks = s.characterLocks
  ∧ (Scheduler.registerSchedule cronOk schedule now s).1.characterQueues = s.characterQueues
  ∧ (Scheduler.registerSchedule cronOk schedule now s).1.scheduleRunCounts
      = s.scheduleRunCounts
  ∧ (Scheduler.registerSchedule cronOk schedule now s).1.skippedRuns = s.skippedRuns :=
  registerScheduleGo_frame cronOk schedule now schedule.entries (s, [])

lemma registerSchedule_jobs_congr (cronOk : String → Bool) (schedule : Schedule) (now : Nat)
    (s t : SchedulerState) (h : s.jobs = t.jobs) :
    (Scheduler.registerSchedule cronOk schedule now s).1.jobs
      = (Scheduler.registerSchedule cronOk schedule now t).1.jobs :=
  registerScheduleGo_jobs_congr cronOk schedule now schedule.entries (s, []) (t, []) h

lemma registerSchedulesGo_frame (cronOk : String → Bool) (now : Nat) :
    ∀ (schedules : List Schedule) (a : SchedulerState × List SchedEvent),
      (Scheduler.registerSchedulesGo cronOk now schedules a).1.characterLocks
          = a.1.characterLocks
    ∧ (Scheduler.registerSchedulesGo cronOk now schedules a).1.characterQueues
          = a.1.characterQueues
    ∧ (Scheduler.registerSchedulesGo cronOk now schedules a).1.scheduleRunCounts
          = a.1.scheduleRunCounts
    ∧ (Scheduler.registerSchedulesGo cronOk now schedules a).1.skippedRuns
          = a.1.skippedRuns := by
  intro schedules
  induction schedules with
  | nil => intro a; exact ⟨rfl, rfl, rfl, rfl⟩
  | cons schedule rest ih =>
    intro a
    rw [show Scheduler.registerSchedulesGo cronOk now (schedule :: rest) a
        = Scheduler.registerSchedulesGo cronOk now rest
            (if schedule.enabled then
              ((Scheduler.registerSchedule cronOk schedule now a.1).1,
               a.2 ++ (Scheduler.registerSchedule cronOk schedule now a.1).2)
             else a) from rfl]
    cases h : schedule.enabled with
    | false => simpa [h] using ih a
    | true =>
      have hf := registerSchedule_frame cronOk schedule now a.1
      have hr := ih ((Scheduler.registerSchedule cronOk schedule now a.1).1,
        a.2 ++ (Scheduler.registerSchedule cronOk schedule now a.1).2)
      simp only [h, if_true]
      exact ⟨hr.1.trans hf.1, hr.2.1.trans hf.2.1, hr.2.2.1.trans hf.2.2.1,
        hr.2.2.2.trans hf.2.2.2⟩

lemma registerSchedulesGo_jobs_congr (cronOk : String → Bool) (now : Nat) :
    ∀ (schedules : List Schedule) (a b : SchedulerState × List SchedEvent),
      a.1.jobs = b.1.jobs →
      (Scheduler.registerSchedulesGo cronOk now schedules a).1.jobs
        = (Scheduler.registerSchedulesGo cronOk now schedules b).1.jobs := by
  intro schedules
  induction schedules with
  | nil => intro a b h; exact h
  | cons schedule rest ih =>
    intro a b h
    rw [show Scheduler.registerSchedulesGo cronOk now (schedule :: rest) a
        = Scheduler.registerSchedulesGo cronOk now rest
            (if schedule.enabled then
              ((Scheduler.registerSchedule cronOk schedule now a.1).1,
               a.2 ++ (Scheduler.registerSchedule cronOk schedule now a.1).2)
             else a) from rfl,
      show Scheduler.registerSchedulesGo cronOk now (schedule :: rest) b
        = Scheduler.registerSchedulesGo cronOk now rest
            (if schedule.enabled then
              ((Scheduler.registerSchedule cronOk schedule now b.1).1,
               b.2 ++ (Scheduler.registerSchedule cronOk schedule now b.1).2)
             else b) from rfl]
    cases h2 : schedule.enabled with
    | false => simpa [h2] using ih a b h
    | true =>
      simp only [h2, if_true]
      exact ih _ _ (registerSchedule_jobs_congr cronOk schedule now a.1 b.1 h)

lemma handleTrigger_skip_eq (schedule : Schedule) (entry : ScheduleEntry) (now : Nat)
    (s : SchedulerState)
    (h : Scheduler.isRunSkipped s schedule.id entry.id = true) :
    Scheduler.handleTrigger schedule entry now s
      = ({ Scheduler.updateJobBookkeeping entry now s with
            skippedRuns := sdelStr (Scheduler.updateJobBookkeeping entry now s).skippedRuns
              (schedule.id ++ "-" ++ entry.id) },
         [SchedEvent.runSkipped entry.id "manual-skip"]) := by
  have hu : Scheduler.isRunSkipped (Scheduler.updateJobBookkeeping entry now s)
      schedule.id entry.id = true :=
    (isRunSkipped_updateJobBookkeeping entry now s schedule.id entry.id).trans h
  unfold Scheduler.handleTrigger
  simp [hu]

lemma nextExecutionGo_spec (iv : Nat) (hiv : 0 < iv) :
    ∀ (fuel next now : Nat), now + 1 - next ≤ fuel →
      ∃ k, Scheduler.nextExecutionGo fuel iv next now = next + k * iv
        ∧ now < next + k * iv
        ∧ ∀ j < k, next + j * iv ≤ now := by
  intro fuel
  induction fuel with
  | zero =>
    intro next now hf
    refine ⟨0, by simp [Scheduler.nextExecutionGo], by simp; omega, by omega⟩
  | succ fuel ih =>
    intro next now hf
    by_cases hle : next ≤ now
    · have hf2 : now + 1 - (next + iv) ≤ fuel := by omega
      obtain ⟨k, hk, h2, h3⟩ := ih (next + iv) now hf2
      refine ⟨k + 1, ?_, ?_, ?_⟩
      · rw [show Scheduler.nextExecutionGo (fuel + 1) iv next now
            = if next ≤ now then Scheduler.nextExecutionGo fuel iv (next + iv) now else next
            from rfl, if_pos hle, hk]
        ring
      · have heq : next + (k + 1) * iv = next + iv + k * iv := by ring
        rw [heq]; exact h2
      · intro j hj
        cases j with
        | zero => simpa using hle
        | succ j2 =>
          have heq : next + (j2 + 1) * iv = next + iv + j2 * iv := by ring
          rw [heq]
          exact h3 j2 (by omega)
    · refine ⟨0, ?_, by simp; omega, by omega⟩
      rw [show Scheduler.nextExecutionGo (fuel + 1) iv next now
          = if next ≤ now then Scheduler.nextExecutionGo fuel iv (next + iv) now else next
          from rfl, if_neg hle]
      simp

/-! ### Claim theorems -/

/-- Claim C1 (code_bug evidence): when the spawn of run r1 on character c1
fails, `handleProcessError` does produce a terminal record with status
`error`, but the outcome is emitted as `run:error` — zero `run:exit`
events — and since app.ts subscribes `onRunCompleted` only to `run:exit`,
dispatching the emitted events leaves character c1 locked and schedule
s1's run count at 1: the resource stays stuck, contradicting the claim. -/
theorem spawn_failure_leaves_lock_stuck :
    c1Events.map eventRecordStatus = [some RunStatus.error]
  ∧ c1Events.filter isRunExitEvent = []
  ∧ (appDispatchAll c1Events c1Sched).characterLocks = [("c1", "e1")]
  ∧ (appDispatchAll c1Events c1Sched).scheduleRunCounts = [("s1", 1)] := by
  decide

/-- Claim C2 (code_bug evidence): a reachable trace — trigger X (schedule
S2, character c2), trigger A (schedule S1, character c1), trigger B
(schedule S1, character c2, queued because S1 is at its ceiling of 1), then
the exit of X's process — ends with TWO concurrently-active runs of S1
(entries A and B) although S1 declares `concurrencyLimit = 1`:
`processCharacterQueue` re-admits B without re-checking the per-schedule
ceiling, and `onRunCompleted` decrements every schedule's count. -/
theorem schedule_ceiling_exceeded_on_trace :
    exS1.concurrencyLimit = some 1
  ∧ c2FinalState.active = [("A", "S1"), ("B", "S1")]
  ∧ activeRunsOfSchedule "S1" c2FinalState = 2 := by
  decide

/-- Claim C3 (code_bug evidence): with a run of S1 (entry A, character c1)
and a run of S2 (entry X, character c2) both active, completing A's run
releases c1's lock and leaves c2's lock in place — but the decrement loop
of `onRunCompleted` lowers BOTH schedules' counts to 0, so S2's count
changes although S2 owned no completed run. -/
theorem completion_decrements_every_schedule :
    JMap.get (Scheduler.onRunCompleted "r1" "A" c3State).1.characterLocks "c1" = none
  ∧ JMap.get (Scheduler.onRunCompleted "r1" "A" c3State).1.characterLocks "c2" = some "X"
  ∧ (Scheduler.onRunCompleted "r1" "A" c3State).1.scheduleRunCounts = [("S1", 0), ("S2", 0)] := by
  decide

/-- Claim C4 (code_bug evidence): after the first admission of kill-previous
entry e1, the lock for character c1 stores the ENTRY id e1 while the
supervisor tracks the process under the uuid run-7f3a; the second trigger's
kill request therefore names e1, `stopRun "e1"` fails with `Run not found`
(swallowed by the ipc catch), and the previous process is never stopped. -/
theorem kill_previous_names_entry_id :
    JMap.get c4Trig1.1.characterLocks "c1" = some "e1"
  ∧ c4Trig2.2 = [SchedEvent.runKillRequested "e1" "overlap-policy",
      SchedEvent.runRequested "s1" "e1" "sc1" "c1" 5000]
  ∧ (JMap.get c4PM.activeRuns "run-7f3a").isSome = true
  ∧ JMap.get c4PM.activeRuns "e1" = none
  ∧ ipcOnKillRequested "e1" c4PM = (c4PM, []) := by
  refine ⟨by decide, by decide, by decide, by decide, by rfl⟩

/-- Claim C5: setting the skip flag twice equals setting it once; when the
flag for (schedule.id, entry.id) is set, the very next trigger of the entry
— in EVERY scheduler state, hence before any concurrency check can
interfere — emits exactly one `skipped(manual-skip)` event, starts no run
(locks, counts and queues are untouched), deletes the flag, and the entry
is no longer marked skipped afterwards. -/
theorem skip_flag_consumed_exactly_once (schedule : Schedule) (entry : ScheduleEntry)
    (now : Nat) (s : SchedulerState)
    (h : Scheduler.isRunSkipped s schedule.id entry.id = true) :
    Scheduler.setRunSkipped schedule.id entry.id (Scheduler.setRunSkipped schedule.id entry.id s)
        = Scheduler.setRunSkipped schedule.id entry.id s
  ∧ (Scheduler.handleTrigger schedule entry now s).2
        = [SchedEvent.runSkipped entry.id "manual-skip"]
  ∧ (Scheduler.handleTrigger schedule entry now s).1.characterLocks = s.characterLocks
  ∧ (Scheduler.handleTrigger schedule entry now s).1.scheduleRunCounts = s.scheduleRunCounts
  ∧ (Scheduler.handleTrigger schedule entry now s).1.characterQueues = s.characterQueues
  ∧ (Scheduler.handleTrigger schedule entry now s).1.skippedRuns
        = sdelStr s.skippedRuns (schedule.id ++ "-" ++ entry.id)
  ∧ Scheduler.isRunSkipped (Scheduler.handleTrigger schedule entry now s).1
        schedule.id entry.id = false := by
  have hb := updateJobBookkeeping_frame entry now s
  have he := handleTrigger_skip_eq schedule entry now s h
  refine ⟨?_, ?_, ?_, ?_, ?_, ?_, ?_⟩
  · simp [Scheduler.setRunSkipped, saddStr_idem]
  · rw [he]
  · rw [he]; exact hb.1
  · rw [he]; exact hb.2.2.1
  · rw [he]; exact hb.2.1
  · rw [he]; simp [hb.2.2.2]
  · rw [he]
    unfold Scheduler.isRunSkipped
    simp [not_mem_sdelStr]

/-- Witness for C5 at a concrete input: state with flag s1-A set, schedule
s1, entry A. -/
theorem skip_flag_consumed_exactly_once_witness :
    Scheduler.isRunSkipped c5State c5Schedule.id exEntryA.id = true
  ∧ (Scheduler.handleTrigger c5Schedule exEntryA 0 c5State).2
      = [SchedEvent.runSkipped exEntryA.id "manual-skip"]
  ∧ Scheduler.isRunSkipped (Scheduler.handleTrigger c5Schedule exEntryA 0 c5State).1
      c5Schedule.id exEntryA.id = false :=
  ⟨by decide,
   (skip_flag_consumed_exactly_once c5Schedule exEntryA 0 c5State (by decide)).2.1,
   (skip_flag_consumed_exactly_once c5Schedule exEntryA 0 c5State (by decide)).2.2.2.2.2.2⟩

/-- Claim C6 (counterexample): a process terminated by a signal outside
{SIGINT, SIGKILL, SIGTERM} — here SIGSEGV, exit code null, elapsed 0 of
1000 ms — is classified `error`, not the `killed` (nor `timeout`) the
claim requires for every signal-terminated exit. -/
theorem classify_other_signal_counterexample :
    ProcessManager.classifyStatus none (some "SIGSEGV") 0 1000 = RunStatus.error
  ∧ ProcessManager.classifyStatus none (some "SIGSEGV") 0 1000 ≠ RunStatus.killed
  ∧ ProcessManager.classifyStatus none (some "SIGSEGV") 0 1000 ≠ RunStatus.timeout := by
  decide

/-- Claim C6 as amended: for exits whose signal is SIGINT, SIGKILL or
SIGTERM the status is `timeout` when elapsed ≥ maxDurationMs and `killed`
otherwise; for every other exit (any other signal or none) the status is
`error` when the exit code is not 0 (a null code counts as non-zero) and
`success` when it is 0. -/
theorem classify_status_amended (code : Option Int) (signal : Option String)
    (durationMs maxDurationMs : Nat) :
    (ProcessManager.isKillSignal signal = true → maxDurationMs ≤ durationMs →
      ProcessManager.classifyStatus code signal durationMs maxDurationMs = RunStatus.timeout)
  ∧ (ProcessManager.isKillSignal signal = true → durationMs < maxDurationMs →
      ProcessManager.classifyStatus code signal durationMs maxDurationMs = RunStatus.killed)
  ∧ (ProcessManager.isKillSignal signal = false → code ≠ some 0 →
      ProcessManager.classifyStatus code signal durationMs maxDurationMs = RunStatus.error)
  ∧ (ProcessManager.isKillSignal signal = false → code = some 0 →
      ProcessManager.classifyStatus code signal durationMs maxDurationMs
        = RunStatus.success) := by
  refine ⟨?_, ?_, ?_, ?_⟩ <;> intro h1 h2
  · simp [ProcessManager.classifyStatus, h1, h2]
  · simp [ProcessManager.classifyStatus, h1, Nat.not_le.mpr h2]
  · simp [ProcessManager.classifyStatus, h1, h2]
  · simp [ProcessManager.classifyStatus, h1, h2]

/-- Witness for the amended C6: a SIGKILL exit 5 ms into a 3 ms budget is a
timeout. -/
theorem classify_status_amended_witness :
    ProcessManager.isKillSignal (some "SIGKILL") = true
  ∧ (3 : Nat) ≤ 5
  ∧ ProcessManager.classifyStatus none (some "SIGKILL") 5 3 = RunStatus.timeout :=
  ⟨by decide, by decide,
   (classify_status_amended none (some "SIGKILL") 5 3).1 (by decide) (by decide)⟩

/-- Claim C7: for every start instant and every budget T, only the soft
timer is armed at start (at T after start); its firing sends SIGINT at
exactly that instant and only then arms the hard timer, which 10000 ms
later sends SIGKILL; and the resulting exit — signal SIGKILL at
start + T + 10000 — is recorded by `handleProcessExit` with status
`timeout`. -/
theorem timeout_escalation (startedAt T : Nat) :
    (ProcessManager.setupTimeoutSim startedAt T).softAt = some (startedAt + T)
  ∧ (ProcessManager.setupTimeoutSim startedAt T).hardAt = none
  ∧ (ProcessManager.fireSoftTimeout (ProcessManager.setupTimeoutSim startedAt T)).signalsSent
      = [(startedAt + T, "SIGINT")]
  ∧ (ProcessManager.fireSoftTimeout (ProcessManager.setupTimeoutSim startedAt T)).hardAt
      = some (startedAt + T + 10000)
  ∧ (ProcessManager.fireHardTimeout (ProcessManager.fireSoftTimeout
        (ProcessManager.setupTimeoutSim startedAt T))).signalsSent
      = [(startedAt + T, "SIGINT"), (startedAt + T + 10000, "SIGKILL")]
  ∧ ((ProcessManager.handleProcessExit "r1" none (some "SIGKILL") (startedAt + T + 10000)
        (ProcessManager.startRun "r1" "e1" "sc1" "ch1" T startedAt
          { activeRuns := [] }).1).2.map eventRecordStatus)
      = [some RunStatus.timeout] := by
  refine ⟨rfl, rfl, rfl, rfl, rfl, ?_⟩
  have hdur : startedAt + T + 10000 - startedAt = T + 10000 := by omega
  simp [ProcessManager.startRun, ProcessManager.handleProcessExit, JMap.set, JMap.get,
    JMap.del, eventRecordStatus, ProcessManager.classifyStatus, ProcessManager.isKillSignal,
    hdur]

/-- Claim C8: for an anchored interval cadence the first fire computed at
registration is the anchor advanced by the least number of whole intervals
that takes it strictly past `now` (zero intervals when the anchor is still
in the future), and an unanchored interval first fires at
`now + interval`. -/
theorem anchor_phase_lock (unit : IntervalUnit) (n anchor now : Nat) (h : 0 < n) :
    (∃ k, Scheduler.computeNextRunAt JobType.interval (Cadence.every unit n (some anchor)) now
        = some (anchor + k * Scheduler.calculateInterval unit n)
      ∧ now < anchor + k * Scheduler.calculateInterval unit n
      ∧ ∀ j < k, anchor + j * Scheduler.calculateInterval unit n ≤ now)
  ∧ Scheduler.computeNextRunAt JobType.interval (Cadence.every unit n none) now
      = some (now + Scheduler.calculateInterval unit n) := by
  have hiv : 0 < Scheduler.calculateInterval unit n := by
    cases unit <;> simp [Scheduler.calculateInterval] <;> omega
  constructor
  · obtain ⟨k, hk, h2, h3⟩ := nextExecutionGo_spec (Scheduler.calculateInterval unit n) hiv
      (now + 1 - anchor) anchor now (Nat.le_refl _)
    refine ⟨k, ?_, h2, h3⟩
    simp [Scheduler.computeNextRunAt, Scheduler.nextExecutionLoop, hk]
  · simp [Scheduler.computeNextRunAt]

/-- Witness for C8: the spec's own example — every 60 minutes anchored at
08:00 (28800000 ms), registered at 08:45 (31500000 ms) — fires next at
09:00, i.e. one whole hour past the anchor, not at 09:45. -/
theorem anchor_phase_lock_witness :
    (0 : Nat) < 60
  ∧ Scheduler.computeNextRunAt JobType.interval
      (Cadence.every IntervalUnit.minutes 60 (some 28800000)) 31500000 = some 32400000
  ∧ (∃ k, Scheduler.computeNextRunAt JobType.interval
        (Cadence.every IntervalUnit.minutes 60 (some 28800000)) 31500000
        = some (28800000 + k * Scheduler.calculateInterval IntervalUnit.minutes 60)
      ∧ 31500000 < 28800000 + k * Scheduler.calculateInterval IntervalUnit.minutes 60
      ∧ ∀ j < k, 28800000 + j * Scheduler.calculateInterval IntervalUnit.minutes 60
          ≤ 31500000)
  ∧ Scheduler.computeNextRunAt JobType.interval
      (Cadence.every IntervalUnit.minutes 60 none) 31500000
      = some (31500000 + Scheduler.calculateInterval IntervalUnit.minutes 60) :=
  ⟨by decide, by decide,
   (anchor_phase_lock IntervalUnit.minutes 60 28800000 31500000 (by decide)).1,
   (anchor_phase_lock IntervalUnit.minutes 60 28800000 31500000 (by decide)).2⟩

/-- Claim C9 (counterexample): `stopRun` on a run the supervisor no longer
tracks is NOT a silent no-op — it raises the error `Run r1 not found`. -/
theorem stop_unknown_run_counterexample :
    ProcessManager.stopRun "r1" { activeRuns := [] } = Except.error "Run r1 not found" := by
  rfl

/-- Claim C9 as amended: for a runId that is no longer tracked, `stopRun`
throws `Run ... not found`; its caller (the ipc `run:kill-requested`
handler) catches and logs the error, so the supervisor's state is
unchanged and no signal is sent — a system-level no-op, but via a caught
exception rather than a silent return. -/
theorem stop_unknown_run_error_caught (runId : String) (s : PMState)
    (h : JMap.get s.activeRuns runId = none) :
    ProcessManager.stopRun runId s = Except.error ("Run " ++ runId ++ " not found")
  ∧ ipcOnKillRequested runId s = (s, []) := by
  constructor
  · unfold ProcessManager.stopRun
    rw [h]
  · unfold ipcOnKillRequested ProcessManager.stopRun
    rw [h]

/-- Witness for the amended C9 on an empty supervisor. -/
theorem stop_unknown_run_error_caught_witness :
    JMap.get ({ activeRuns := [] } : PMState).activeRuns "gone" = none
  ∧ ProcessManager.stopRun "gone" { activeRuns := [] }
      = Except.error ("Run " ++ "gone" ++ " not found")
  ∧ ipcOnKillRequested "gone" { activeRuns := [] } = ({ activeRuns := [] }, []) :=
  ⟨by decide,
   (stop_unknown_run_error_caught "gone" { activeRuns := [] } (by decide)).1,
   (stop_unknown_run_error_caught "gone" { activeRuns := [] } (by decide)).2⟩

/-- Claim C10: for every prior state and every schedule list,
`registerSchedules` leaves the character-lock map, the per-character FIFO
queues and the skip-flag set exactly as they were, resets the schedule
run counts to the empty map, and rebuilds the job map from scratch — the
jobs after re-registration are those obtained from an empty scheduler, so
no prior job survives. -/
theorem registerSchedules_frame_and_reset (cronOk : String → Bool)
    (schedules : List Schedule) (now : Nat) (s : SchedulerState) :
    (Scheduler.registerSchedules cronOk schedules now s).1.characterLocks = s.characterLocks
  ∧ (Scheduler.registerSchedules cronOk schedules now s).1.characterQueues = s.characterQueues
  ∧ (Scheduler.registerSchedules cronOk schedules now s).1.skippedRuns = s.skippedRuns
  ∧ (Scheduler.registerSchedules cronOk schedules now s).1.scheduleRunCounts = []
  ∧ (Scheduler.registerSchedules cronOk schedules now s).1.jobs
      = (Scheduler.registerSchedules cronOk schedules now emptySchedulerState).1.jobs := by
  have hf := registerSchedulesGo_frame cronOk now schedules (Scheduler.clearAllJobs s, [])
  have hj := registerSchedulesGo_jobs_congr cronOk now schedules
    (Scheduler.clearAllJobs s, []) (Scheduler.clearAllJobs emptySchedulerState, [])
    (by simp [Scheduler.clearAllJobs])
  unfold Scheduler.registerSchedules
  refine ⟨hf.1, hf.2.1, hf.2.2.2, hf.2.2.1, hj⟩
